import Mathlib

/-!
Verification of the side-scrolling platformer core ("Tip of the Iceberg").

The TypeScript sources are shallowly embedded: TS `number` is modelled by `ℚ`
(every constant appearing in the verified code paths is rational), classes
become structures with explicit state passing, and mutation becomes functional
update.  Rendering-only state (canvas contexts, rotation/facing animation,
sprite caches, sea creatures, camera smoothing, fireworks particles) feeds no
gameplay decision and is omitted from the embedded structures; each omission is
noted at the definition it concerns.
-/

namespace Iceberg

/-- Collision side classification, `'top' | 'bottom' | 'left' | 'right'`. -/
inductive Side where
  | top
  | bottom
  | left
  | right
deriving DecidableEq, Repr

/-- Source `CollisionResult` from models.ts: `{collided: bool, side: ... | null}`. -/
structure CollisionResult where
  collided : Bool
  side : Option Side
deriving DecidableEq, Repr

/-- Movement direction for `move()`. -/
inductive Dir where
  | left
  | right
deriving DecidableEq, Repr

/-- Source `Rectangle` interface from models.ts. -/
structure Rectangle where
  x : ℚ
  y : ℚ
  width : ℚ
  height : ℚ
deriving DecidableEq, Repr

/-- Source `GhostCharacter` from models.ts.  The facing/rotation animation fields
(`facingDirection`, `currentRotationY`, `targetRotationY`,
`rotationAnimationProgress`, `rotationAnimationDuration`) are render-only:
no gameplay decision reads them, so they are omitted here. -/
structure GhostCharacter where
  x : ℚ
  y : ℚ
  width : ℚ
  height : ℚ
  velocity : ℚ
  canvasWidth : ℚ
  currentLevel : ℤ
  velocityY : ℚ
  isJumping : Bool
  isOnGround : Bool
  jumpStrength : ℚ
  gravity : ℚ
deriving DecidableEq, Repr

/-- The `GhostCharacter` constructor: physics fields are initialised to
`velocityY = 0`, `isJumping = false`, `isOnGround = true`,
`jumpStrength = -400`, `gravity = 800`. -/
def GhostCharacter.make (x y width height velocity canvasWidth : ℚ)
    (currentLevel : ℤ) : GhostCharacter :=
  { x := x, y := y, width := width, height := height, velocity := velocity,
    canvasWidth := canvasWidth, currentLevel := currentLevel,
    velocityY := 0, isJumping := false, isOnGround := true,
    jumpStrength := -400, gravity := 800 }

/-- Source `getBounds()`: the character's axis-aligned bounding box. -/
def GhostCharacter.getBounds (c : GhostCharacter) : Rectangle :=
  { x := c.x, y := c.y, width := c.width, height := c.height }

/-- Source `move(direction, deltaTime)`: horizontal translation by
`velocity * deltaTime` (the rotation-animation bookkeeping it also performs is
render-only and omitted). -/
def GhostCharacter.move (c : GhostCharacter) (direction : Dir) (deltaTime : ℚ) :
    GhostCharacter :=
  let distance := c.velocity * deltaTime
  match direction with
  | Dir.left => { c with x := c.x - distance }
  | Dir.right => { c with x := c.x + distance }

/-- Source `jump()`: set `velocityY` to `jumpStrength` only when
`isOnGround && !isJumping`; otherwise do nothing. -/
def GhostCharacter.jump (c : GhostCharacter) : GhostCharacter :=
  if c.isOnGround = true ∧ c.isJumping = false then
    { c with velocityY := c.jumpStrength, isJumping := true, isOnGround := false }
  else
    c

/-- Source `applyGravity(deltaTime)`: while `isJumping`, add `gravity * deltaTime` to
`velocityY` and cap the result at the terminal velocity `600`. -/
def GhostCharacter.applyGravity (c : GhostCharacter) (deltaTime : ℚ) :
    GhostCharacter :=
  if c.isJumping = true then
    { c with velocityY := min (c.velocityY + c.gravity * deltaTime) 600 }
  else
    c

/-- Source `land()`: reset `velocityY = 0`, `isJumping = false`, `isOnGround = true`. -/
def GhostCharacter.land (c : GhostCharacter) : GhostCharacter :=
  { c with velocityY := 0, isJumping := false, isOnGround := true }

/-- Source `updatePhysics(deltaTime)`: apply gravity, then integrate
`y += velocityY * deltaTime` (the trailing rotation-animation update is
render-only and omitted). -/
def GhostCharacter.updatePhysics (c : GhostCharacter) (deltaTime : ℚ) :
    GhostCharacter :=
  let c1 := c.applyGravity deltaTime
  { c1 with y := c1.y + c1.velocityY * deltaTime }

/-- Obstacle visual type tag, `'block' | 'spike'`. -/
inductive ObstacleType where
  | block
  | spike
deriving DecidableEq, Repr

/-- Source `Obstacle` from models.ts. -/
structure Obstacle where
  x : ℚ
  y : ℚ
  width : ℚ
  height : ℚ
  type : ObstacleType
deriving DecidableEq, Repr

/-- Source `Obstacle.getBounds()`. -/
def Obstacle.getBounds (o : Obstacle) : Rectangle :=
  { x := o.x, y := o.y, width := o.width, height := o.height }

/-- The side-classification chain of `Obstacle.checkCollision`: compute the
minimum of the four penetration depths with `Math.min` and return the first
side whose depth equals that minimum, tested in the order
left, right, top, bottom. -/
def collisionSide (overlapLeft overlapRight overlapTop overlapBottom : ℚ) :
    Side :=
  let minOverlap := min (min (min overlapLeft overlapRight) overlapTop) overlapBottom
  if minOverlap = overlapLeft then Side.left
  else if minOverlap = overlapRight then Side.right
  else if minOverlap = overlapTop then Side.top
  else Side.bottom

/-- Source `Obstacle.checkCollision(character)`: strict AABB intersection test; when
overlapping, classify the collision side by minimum penetration. -/
def Obstacle.checkCollision (o : Obstacle) (character : GhostCharacter) :
    CollisionResult :=
  let charBounds := character.getBounds
  let obsBounds := o.getBounds
  if charBounds.x < obsBounds.x + obsBounds.width ∧
      charBounds.x + charBounds.width > obsBounds.x ∧
      charBounds.y < obsBounds.y + obsBounds.height ∧
      charBounds.y + charBounds.height > obsBounds.y then
    let overlapLeft := (charBounds.x + charBounds.width) - obsBounds.x
    let overlapRight := (obsBounds.x + obsBounds.width) - charBounds.x
    let overlapTop := (charBounds.y + charBounds.height) - obsBounds.y
    let overlapBottom := (obsBounds.y + obsBounds.height) - charBounds.y
    { collided := true,
      side := some (collisionSide overlapLeft overlapRight overlapTop overlapBottom) }
  else
    { collided := false, side := none }

namespace PhysicsSystem

/-- Source `PhysicsSystem.checkGroundCollision(character, groundY)`: when the
character's bottom edge is at or below `groundY` and `velocityY >= 0`, snap
`y = groundY - height`, call `land()`, and report `true`; otherwise leave the
character untouched and report `false`. -/
def checkGroundCollision (character : GhostCharacter) (groundY : ℚ) :
    GhostCharacter × Bool :=
  let charBottom := character.y + character.height
  if charBottom ≥ groundY ∧ character.velocityY ≥ 0 then
    (({ character with y := groundY - character.height }).land, true)
  else
    (character, false)

/-- Source `PhysicsSystem.resolveCollision(character, obstacle, collisionSide)`
(the three-argument variant of physics.ts): positional correction per side;
`top` additionally calls `land()`, `bottom` zeroes `velocityY`. -/
def resolveCollision (character : GhostCharacter) (obstacle : Obstacle)
    (collisionSide : Side) : GhostCharacter :=
  let obsBounds := obstacle.getBounds
  match collisionSide with
  | Side.top => ({ character with y := obsBounds.y - character.height }).land
  | Side.bottom =>
      { character with y := obsBounds.y + obsBounds.height, velocityY := 0 }
  | Side.left => { character with x := obsBounds.x - character.width }
  | Side.right => { character with x := obsBounds.x + obsBounds.width }

/-- One iteration of the obstacle loop in `checkObstacleCollisions`: detect,
resolve, and remember whether some resolution landed on a top surface. -/
def obstacleStep (acc : GhostCharacter × Bool) (obstacle : Obstacle) :
    GhostCharacter × Bool :=
  let collision := obstacle.checkCollision acc.1
  match collision.side with
  | some side =>
      (resolveCollision acc.1 obstacle side, acc.2 || (side = Side.top))
  | none => acc

/-- Source `PhysicsSystem.checkObstacleCollisions(character, obstacles)`: resolve
against every obstacle in order, then run the walked-off-an-edge check — if
the character is flagged `isOnGround` but is neither standing on any
obstacle's top surface (center-x over the obstacle, bottom within 5px of its
top) nor within 5px of the hard-coded ground line `550`, flip it to falling. -/
def checkObstacleCollisions (character : GhostCharacter)
    (obstacles : List Obstacle) : GhostCharacter :=
  let folded := obstacles.foldl obstacleStep (character, false)
  let c := folded.1
  let onObstacleTop := folded.2
  if onObstacleTop = false ∧ c.isOnGround = true ∧ obstacles.length > 0 then
    let charBottom := c.y + c.height
    let charCenterX := c.x + c.width / 2
    let stillOnObstacle := obstacles.any fun o =>
      decide (charCenterX ≥ o.x) && decide (charCenterX ≤ o.x + o.width) &&
        decide (|charBottom - o.y| < 5)
    let onActualGround := decide (charBottom ≥ (550 : ℚ) - 5)
    if stillOnObstacle = false ∧ onActualGround = false then
      { c with isOnGround := false, isJumping := true }
    else
      c
  else
    c

end PhysicsSystem

/-! ### The side classification matches the spec's minimum-penetration rule -/

/-- Modelled from the spec's words (for the refinement claim C5): the side of
minimum penetration, ties broken in the order left, right, top, bottom. -/
def minPenetrationSide (overlapLeft overlapRight overlapTop overlapBottom : ℚ) :
    Side :=
  if overlapLeft ≤ overlapRight ∧ overlapLeft ≤ overlapTop ∧
      overlapLeft ≤ overlapBottom then Side.left
  else if overlapRight ≤ overlapTop ∧ overlapRight ≤ overlapBottom then
    Side.right
  else if overlapTop ≤ overlapBottom then Side.top
  else Side.bottom

lemma min4_eq_left_iff (a b c d : ℚ) :
    min (min (min a b) c) d = a ↔ a ≤ b ∧ a ≤ c ∧ a ≤ d := by
  constructor
  · intro h
    have h1 : min (min (min a b) c) d ≤ min a b :=
      le_trans (min_le_left _ _) (min_le_left _ _)
    have h2 : min (min (min a b) c) d ≤ c :=
      le_trans (min_le_left _ _) (min_le_right _ _)
    have h3 : min (min (min a b) c) d ≤ d := min_le_right _ _
    rw [h] at h1 h2 h3
    exact ⟨(le_min_iff.mp h1).2, h2, h3⟩
  · rintro ⟨h1, h2, h3⟩
    rw [min_eq_left h1, min_eq_left h2, min_eq_left h3]

lemma min4_eq_second_iff (a b c d : ℚ) (hn : ¬(a ≤ b ∧ a ≤ c ∧ a ≤ d)) :
    min (min (min a b) c) d = b ↔ b ≤ c ∧ b ≤ d := by
  constructor
  · intro h
    have h2 : min (min (min a b) c) d ≤ c :=
      le_trans (min_le_left _ _) (min_le_right _ _)
    have h3 : min (min (min a b) c) d ≤ d := min_le_right _ _
    rw [h] at h2 h3
    exact ⟨h2, h3⟩
  · rintro ⟨hbc, hbd⟩
    have hba : b ≤ a := by
      by_contra hab
      push_neg at hab
      exact hn ⟨le_of_lt hab, le_trans (le_of_lt hab) hbc,
        le_trans (le_of_lt hab) hbd⟩
    rw [min_eq_right hba, min_eq_left hbc, min_eq_left hbd]

lemma min4_eq_third (a b c d : ℚ) (hn1 : ¬(a ≤ b ∧ a ≤ c ∧ a ≤ d))
    (hn2 : min (min (min a b) c) d ≠ b) (hcd : c ≤ d) :
    min (min (min a b) c) d = c := by
  have hcb : c ≤ b := by
    by_contra hbc
    push_neg at hbc
    have hbd : b ≤ d := le_trans (le_of_lt hbc) hcd
    have hba : b ≤ a := by
      by_contra hab
      push_neg at hab
      exact hn1 ⟨le_of_lt hab, le_trans (le_of_lt hab) (le_of_lt hbc),
        le_trans (le_of_lt hab) hbd⟩
    exact hn2 (by
      rw [min_eq_right hba, min_eq_left (le_of_lt hbc), min_eq_left hbd])
  have hca : c ≤ a := by
    by_contra hac
    push_neg at hac
    exact hn1 ⟨le_trans (le_of_lt hac) hcb, le_of_lt hac,
      le_trans (le_of_lt hac) hcd⟩
  calc min (min (min a b) c) d = min c d := by
        rw [min_eq_right (le_min hca hcb)]
    _ = c := min_eq_left hcd

/-- The code's classification chain agrees with the spec's
minimum-penetration rule with left/right/top/bottom tie-break order. -/
lemma collisionSide_eq_minPenetrationSide (a b c d : ℚ) :
    collisionSide a b c d = minPenetrationSide a b c d := by
  unfold collisionSide minPenetrationSide
  by_cases h1 : a ≤ b ∧ a ≤ c ∧ a ≤ d
  · rw [if_pos ((min4_eq_left_iff a b c d).mpr h1), if_pos h1]
  · have hne1 : min (min (min a b) c) d ≠ a :=
      fun hh => h1 ((min4_eq_left_iff a b c d).mp hh)
    rw [if_neg hne1, if_neg h1]
    by_cases h2 : b ≤ c ∧ b ≤ d
    · rw [if_pos ((min4_eq_second_iff a b c d h1).mpr h2), if_pos h2]
    · have hne2 : min (min (min a b) c) d ≠ b :=
        fun hh => h2 ((min4_eq_second_iff a b c d h1).mp hh)
      rw [if_neg hne2, if_neg h2]
      by_cases h3 : c ≤ d
      · rw [if_pos (min4_eq_third a b c d h1 hne2 h3), if_pos h3]
      · have hne3 : min (min (min a b) c) d ≠ c := by
          intro hh
          have hmd : min (min (min a b) c) d ≤ d := min_le_right _ _
          rw [hh] at hmd
          exact h3 hmd
        rw [if_neg hne3, if_neg h3]

/-! ### Concrete scenario inputs shared by the collision claims -/

/-- The obstacle `(200, 400, 50, 50)` of scenarios A and B. -/
def scenarioObstacle : Obstacle :=
  { x := 200, y := 400, width := 50, height := 50, type := ObstacleType.block }

/-- Scenario A character: `(170, 400, 40, 40)`, at rest. -/
def characterA : GhostCharacter :=
  { x := 170, y := 400, width := 40, height := 40, velocity := 200,
    canvasWidth := 800, currentLevel := 1, velocityY := 0,
    isJumping := false, isOnGround := true, jumpStrength := -400,
    gravity := 800 }

/-- Scenario B character: `(200, 370, 40, 40)` falling with `velocityY = 100`. -/
def characterB : GhostCharacter :=
  { x := 200, y := 370, width := 40, height := 40, velocity := 200,
    canvasWidth := 800, currentLevel := 1, velocityY := 100,
    isJumping := true, isOnGround := false, jumpStrength := -400,
    gravity := 800 }

/-! ### Claims C2, C4, C5, C6, C10 -/

/-- Claim C2, counterexample: for the obstacle `(200,400,50,50)` and the character
falling from `(200,370,40,40)`, the detected side is `top`, but resolution
puts the character at `y = 400 - 40 = 360`, not at `y = 350` as the claim
states. -/
theorem claim_C2_cex :
    (scenarioObstacle.checkCollision characterB).side = some Side.top ∧
    (PhysicsSystem.resolveCollision characterB scenarioObstacle Side.top).y = 360 ∧
    (PhysicsSystem.resolveCollision characterB scenarioObstacle Side.top).y ≠ 350 := by
  refine ⟨?_, ?_, ?_⟩ <;>
    norm_num [scenarioObstacle, characterB, Obstacle.checkCollision,
      GhostCharacter.getBounds, Obstacle.getBounds, collisionSide, min_def,
      PhysicsSystem.resolveCollision, GhostCharacter.land]

/-- Claim C2, amended: same scenario; side is `top`, and after resolution
`character.y = 360` (the obstacle's top minus the character's height),
`velocityY = 0` and `onGround = true`. -/
theorem claim_C2_thm :
    (scenarioObstacle.checkCollision characterB).side = some Side.top ∧
    (PhysicsSystem.resolveCollision characterB scenarioObstacle Side.top).y = 360 ∧
    (PhysicsSystem.resolveCollision characterB scenarioObstacle Side.top).velocityY = 0 ∧
    (PhysicsSystem.resolveCollision characterB scenarioObstacle Side.top).isOnGround = true := by
  refine ⟨?_, ?_, ?_, ?_⟩ <;>
    norm_num [scenarioObstacle, characterB, Obstacle.checkCollision,
      GhostCharacter.getBounds, Obstacle.getBounds, collisionSide, min_def,
      PhysicsSystem.resolveCollision, GhostCharacter.land]

/-- Claim C4: `jump()` on a grounded, non-jumping character sets
`velocityY = jumpStrength = -400 < 0`, `jumping = true`, `onGround = false`
and changes nothing else; on a character already jumping it is a no-op. -/
theorem claim_C4_thm :
    (∀ c : GhostCharacter, c.isOnGround = true → c.isJumping = false →
      c.jumpStrength = -400 →
      c.jump.velocityY = -400 ∧ c.jump.velocityY < 0 ∧
      c.jump.isJumping = true ∧ c.jump.isOnGround = false ∧
      c.jump.x = c.x ∧ c.jump.y = c.y) ∧
    (∀ c : GhostCharacter, c.isJumping = true → c.jump = c) := by
  constructor
  · intro c hg hj hs
    unfold GhostCharacter.jump
    rw [if_pos ⟨hg, hj⟩]
    refine ⟨hs, ?_, rfl, rfl, rfl, rfl⟩
    show c.jumpStrength < 0
    rw [hs]
    norm_num
  · intro c hj
    unfold GhostCharacter.jump
    rw [if_neg]
    rintro ⟨-, hj2⟩
    rw [hj] at hj2
    exact Bool.noConfusion hj2

/-- Claim C4, witness: instantiating both conjuncts at concrete characters. -/
theorem claim_C4_wit :
    (characterA.jump.velocityY = -400 ∧ characterA.jump.isJumping = true) ∧
    characterB.jump = characterB := by
  refine ⟨⟨(claim_C4_thm.1 characterA rfl rfl rfl).1,
    (claim_C4_thm.1 characterA rfl rfl rfl).2.2.1⟩,
    claim_C4_thm.2 characterB rfl⟩

/-- Claim C5: for every overlapping character/obstacle pair the side returned by
`checkCollision` is the side of minimum penetration with ties broken in the
order left, right, top, bottom; in particular for the obstacle
`(200,400,50,50)` and the character `(170,400,40,40)` the side is `left` and
resolution puts the character at `x = 160`. -/
theorem claim_C5_thm :
    (∀ (character : GhostCharacter) (o : Obstacle),
      (o.checkCollision character).collided = true →
      (o.checkCollision character).side =
        some (minPenetrationSide ((character.x + character.width) - o.x)
          ((o.x + o.width) - character.x)
          ((character.y + character.height) - o.y)
          ((o.y + o.height) - character.y))) ∧
    (scenarioObstacle.checkCollision characterA).side = some Side.left ∧
    (PhysicsSystem.resolveCollision characterA scenarioObstacle Side.left).x = 160 := by
  refine ⟨?_, ?_, ?_⟩
  · intro character o h
    simp only [Obstacle.checkCollision, GhostCharacter.getBounds,
      Obstacle.getBounds] at h ⊢
    split_ifs at h ⊢ with hov
    simp only [Option.some.injEq]
    exact collisionSide_eq_minPenetrationSide _ _ _ _
  · norm_num [scenarioObstacle, characterA, Obstacle.checkCollision,
      GhostCharacter.getBounds, Obstacle.getBounds, collisionSide, min_def]
  · norm_num [scenarioObstacle, characterA, PhysicsSystem.resolveCollision,
      Obstacle.getBounds]

/-- Claim C5, witness: the universal part applied to scenario A. -/
theorem claim_C5_wit :
    (scenarioObstacle.checkCollision characterA).side =
      some (minPenetrationSide 10 80 40 50) := by
  have h := claim_C5_thm.1 characterA scenarioObstacle
    (by norm_num [scenarioObstacle, characterA, Obstacle.checkCollision,
      GhostCharacter.getBounds, Obstacle.getBounds])
  norm_num [characterA, scenarioObstacle] at h
  exact h

/-- Gravity keeps `velocityY` at or below terminal velocity regardless of the
starting value's relation to the cap, provided it already was below. -/
lemma applyGravity_le_terminal (c : GhostCharacter) (dt : ℚ)
    (h : c.velocityY ≤ 600) : (c.applyGravity dt).velocityY ≤ 600 := by
  unfold GhostCharacter.applyGravity
  split_ifs
  · exact min_le_right _ _
  · exact h

/-- Fold `applyGravity` over a list of time steps. -/
def applyGravityRuns (c : GhostCharacter) (dts : List ℚ) : GhostCharacter :=
  dts.foldl GhostCharacter.applyGravity c

lemma applyGravityRuns_le_terminal (dts : List ℚ) :
    ∀ c : GhostCharacter, c.velocityY ≤ 600 →
      (applyGravityRuns c dts).velocityY ≤ 600 := by
  induction dts with
  | nil => intro c h; exact h
  | cons dt rest ih =>
      intro c h
      exact ih (c.applyGravity dt) (applyGravity_le_terminal c dt h)

/-- An airborne character whose downward velocity already exceeds the
terminal velocity, for the C6 counterexample. -/
def cexCharacterC6 : GhostCharacter :=
  { x := 100, y := 100, width := 40, height := 40, velocity := 200,
    canvasWidth := 800, currentLevel := 1, velocityY := 700,
    isJumping := true, isOnGround := false, jumpStrength := -400,
    gravity := 800 }

/-- Claim C6, counterexample: an airborne character with `velocityY = 700` (above
the terminal velocity) has its `velocityY` *decreased* to the cap `600` by
`applyGravity(1)`, so "never decreases" fails as stated. -/
theorem claim_C6_cex :
    cexCharacterC6.isJumping = true ∧ (0 : ℚ) < 1 ∧
    (cexCharacterC6.applyGravity 1).velocityY < cexCharacterC6.velocityY := by
  refine ⟨rfl, by norm_num, ?_⟩
  norm_num [cexCharacterC6, GhostCharacter.applyGravity, min_def]

/-- Claim C6, amended: for every airborne character whose `velocityY` is at most the
terminal velocity `600`, `applyGravity(dt)` with `dt > 0` never decreases
`velocityY`; and for every character starting at or below `600`, `velocityY`
stays at or below `600` after any number of `applyGravity` calls. -/
theorem claim_C6_thm :
    (∀ (c : GhostCharacter) (dt : ℚ), c.isJumping = true → c.gravity = 800 →
      0 < dt → c.velocityY ≤ 600 →
      c.velocityY ≤ (c.applyGravity dt).velocityY ∧
        (c.applyGravity dt).velocityY ≤ 600) ∧
    (∀ (c : GhostCharacter) (dts : List ℚ), c.velocityY ≤ 600 →
      (applyGravityRuns c dts).velocityY ≤ 600) := by
  constructor
  · intro c dt hj hg hdt hv
    have hstep : (c.applyGravity dt).velocityY =
        min (c.velocityY + c.gravity * dt) 600 := by
      unfold GhostCharacter.applyGravity
      rw [if_pos hj]
    constructor
    · rw [hstep, le_min_iff]
      refine ⟨?_, hv⟩
      rw [hg]
      linarith
    · exact applyGravity_le_terminal c dt hv
  · intro c dts h
    exact applyGravityRuns_le_terminal dts c h

/-- Claim C6, witness: both conjuncts at concrete inputs. -/
theorem claim_C6_wit :
    ((characterB.applyGravity 1).velocityY = 600 ∧
      characterB.velocityY ≤ (characterB.applyGravity 1).velocityY) ∧
    (applyGravityRuns characterB [1, 1, 1]).velocityY ≤ 600 := by
  refine ⟨⟨?_,
    (claim_C6_thm.1 characterB 1 rfl rfl (by norm_num)
      (by norm_num [characterB])).1⟩,
    claim_C6_thm.2 characterB [1, 1, 1] (by norm_num [characterB])⟩
  norm_num [characterB, GhostCharacter.applyGravity, min_def]

/-- Claim C10: when the character's bottom edge is at or below the ground line but
`velocityY < 0` (moving upward), `checkGroundCollision` returns `false` and
leaves the character unchanged; conversely a `true` return (snapping and
landing) happens only when `velocityY ≥ 0`. -/
theorem claim_C10_thm :
    (∀ (c : GhostCharacter) (groundY : ℚ), groundY ≤ c.y + c.height →
      c.velocityY < 0 →
      PhysicsSystem.checkGroundCollision c groundY = (c, false)) ∧
    (∀ (c : GhostCharacter) (groundY : ℚ),
      (PhysicsSystem.checkGroundCollision c groundY).2 = true →
      0 ≤ c.velocityY) := by
  constructor
  · intro c groundY hbelow hneg
    simp only [PhysicsSystem.checkGroundCollision]
    rw [if_neg]
    rintro ⟨-, hge⟩
    exact absurd hneg (not_lt.mpr hge)
  · intro c groundY h
    simp only [PhysicsSystem.checkGroundCollision] at h
    split_ifs at h with hcond
    exact hcond.2

/-- Claim C10, witness: a character below ground moving upward is left unchanged;
the positive branch at a concrete sunken character. -/
theorem claim_C10_wit :
    PhysicsSystem.checkGroundCollision
      { characterA with y := 540, velocityY := -100 } 550 =
      ({ characterA with y := 540, velocityY := -100 }, false) ∧
    0 ≤ ({ characterA with y := 560, velocityY := 100 } : GhostCharacter).velocityY := by
  refine ⟨claim_C10_thm.1 _ 550 (by norm_num [characterA]) (by norm_num [characterA]), ?_⟩
  refine claim_C10_thm.2 _ 550 ?_
  norm_num [PhysicsSystem.checkGroundCollision, characterA, GhostCharacter.land]

/-! ### TimeoutManager (timeoutManager.ts) -/

/-- Source `TimeoutManager`: countdown state with a one-shot trigger latch.
This variant renders the TS `number` fields as exact rationals; it is the
timer embedded in the `GameEngine` state below, where no verified property
depends on the countdown's rounding.  The numerical timer claim is settled
against the bit-accurate binary64 model `TimeoutManagerF64` further down,
because the program's `timeRemaining -= deltaTime` is IEEE-754 double
subtraction and its rounding decides that claim. -/
structure TimeoutManager where
  timeRemaining : ℚ
  isActive : Bool
  hasTriggered : Bool
  timeoutDuration : ℚ
deriving DecidableEq, Repr

/-- The `TimeoutManager` constructor. -/
def TimeoutManager.make (timeoutDuration : ℚ) : TimeoutManager :=
  { timeRemaining := timeoutDuration, isActive := false, hasTriggered := false,
    timeoutDuration := timeoutDuration }

/-- Source `start()`. -/
def TimeoutManager.start (tm : TimeoutManager) : TimeoutManager :=
  { tm with isActive := true, hasTriggered := false }

/-- Source `stop()`. -/
def TimeoutManager.stop (tm : TimeoutManager) : TimeoutManager :=
  { tm with isActive := false }

/-- Source `reset()`. -/
def TimeoutManager.reset (tm : TimeoutManager) : TimeoutManager :=
  { tm with
    timeRemaining := tm.timeoutDuration
    isActive := false
    hasTriggered := false }

/-- Source `update(deltaTime)`: no-op when inactive or already triggered; otherwise
decrement, clamp at 0, and fire the one-shot trigger when the clamped time
reaches 0. -/
def TimeoutManager.update (tm : TimeoutManager) (deltaTime : ℚ) :
    TimeoutManager × Bool :=
  if tm.isActive = false ∨ tm.hasTriggered = true then
    (tm, false)
  else
    let t1 := tm.timeRemaining - deltaTime
    let t2 := if t1 < 0 then 0 else t1
    if t2 ≤ 0 ∧ tm.hasTriggered = false then
      ({ tm with timeRemaining := t2, hasTriggered := true, isActive := false },
        true)
    else
      ({ tm with timeRemaining := t2 }, false)

/-! ### Binary64 model of the timer (for the numerical claim C7)

The TS runtime computes `timeRemaining -= deltaTime` in IEEE-754 binary64.
Every finite double is a dyadic rational `m · 2^e` with `|m| ≤ 2^53`, and
binary64 subtraction is the exact dyadic difference rounded to 53 significant
bits, nearest, ties to even.  All values reached in this development are in
the normal range (no overflow, underflow, subnormal or NaN), so that rounding
rule is the complete semantics here. -/

/-- Bit length of a natural number, by repeated halving with explicit fuel;
200 bits covers every value in this development by a wide margin. -/
def bitsAux : ℕ → ℕ → ℕ
  | 0, _ => 0
  | fuel + 1, n => if n = 0 then 0 else bitsAux fuel (n / 2) + 1

/-- Bit length of a natural number. -/
def bits (n : ℕ) : ℕ := bitsAux 200 n

/-- A binary64 value, represented as the dyadic rational `m · 2^e`. -/
structure F64 where
  m : ℤ
  e : ℤ
deriving DecidableEq, Repr

/-- Round-to-nearest, ties-to-even selection of the shifted significand:
`q` is the truncated quotient, `r` the discarded remainder, `half` half the
discarded weight. -/
def roundQ (q r half : ℕ) : ℕ :=
  if half < r then q + 1
  else if r < half then q
  else if q % 2 = 0 then q else q + 1

/-- Reassemble the rounded significand with its sign and exponent. -/
def roundCore (pos : Bool) (E : ℤ) (k : ℕ) (q2 : ℕ) : F64 :=
  if pos then ⟨(q2 : ℤ), E + (k : ℤ)⟩ else ⟨-(q2 : ℤ), E + (k : ℤ)⟩

/-- Shift a significand of `n` right by `k` bits, rounding to nearest-even. -/
def roundShift (pos : Bool) (E : ℤ) (n : ℕ) (k : ℕ) : F64 :=
  roundCore pos E k (roundQ (n / 2 ^ k) (n % 2 ^ k) (2 ^ (k - 1)))

/-- Round `M · 2^E` to 53 significant bits when its bit length `b` exceeds
53; values that already fit are exact. -/
def roundBits (M : ℤ) (E : ℤ) (n : ℕ) (b : ℕ) : F64 :=
  if b ≤ 53 then ⟨M, E⟩ else roundShift (decide (0 < M)) E n (b - 53)

/-- Round the exact dyadic value `M · 2^E` to the nearest binary64
(53-bit significand, ties to even). -/
def roundDyadic (M : ℤ) (E : ℤ) : F64 :=
  if M = 0 then ⟨0, 0⟩ else roundBits M E M.natAbs (bits M.natAbs)

/-- Binary64 subtraction: align the exponents, subtract exactly, round. -/
def F64.sub (x y : F64) : F64 :=
  roundDyadic
    (x.m * 2 ^ (x.e - min x.e y.e).toNat - y.m * 2 ^ (y.e - min x.e y.e).toNat)
    (min x.e y.e)

/-- The binary64 value of the literal `0.1`:
`3602879701896397 · 2^-55 = 0.1000000000000000055511151231257827…`. -/
def f64Tenth : F64 := ⟨3602879701896397, -55⟩

/-- Source `TimeoutManager` with its `number` fields at their actual binary64
semantics; structure and methods mirror timeoutManager.ts exactly. -/
structure TimeoutManagerF64 where
  timeRemaining : F64
  isActive : Bool
  hasTriggered : Bool
  timeoutDuration : F64
deriving DecidableEq, Repr

/-- The constructor. -/
def TimeoutManagerF64.make (timeoutDuration : F64) : TimeoutManagerF64 :=
  { timeRemaining := timeoutDuration, isActive := false, hasTriggered := false,
    timeoutDuration := timeoutDuration }

/-- Source `start()`. -/
def TimeoutManagerF64.start (tm : TimeoutManagerF64) : TimeoutManagerF64 :=
  { tm with isActive := true, hasTriggered := false }

/-- Source `stop()`. -/
def TimeoutManagerF64.stop (tm : TimeoutManagerF64) : TimeoutManagerF64 :=
  { tm with isActive := false }

/-- Source `reset()`. -/
def TimeoutManagerF64.reset (tm : TimeoutManagerF64) : TimeoutManagerF64 :=
  { tm with
    timeRemaining := tm.timeoutDuration
    isActive := false
    hasTriggered := false }

/-- The clamp `if (timeRemaining < 0) timeRemaining = 0` (the sign of a
binary64 value is the sign of its significand). -/
def clampAtZero (t1 : F64) : F64 :=
  if t1.m < 0 then F64.mk 0 0 else t1

/-- The trigger check `if (timeRemaining <= 0 && !hasTriggered)` applied to
the already clamped remaining time `t2`. -/
def triggerCheck (tm : TimeoutManagerF64) (t2 : F64) : TimeoutManagerF64 × Bool :=
  if t2.m ≤ 0 ∧ tm.hasTriggered = false then
    ({ tm with timeRemaining := t2, hasTriggered := true, isActive := false },
      true)
  else
    ({ tm with timeRemaining := t2 }, false)

/-- Source `update(deltaTime)` at binary64 semantics: no-op when inactive or
already triggered; otherwise subtract (with rounding), clamp at 0, and fire
the one-shot trigger when the clamped time reaches 0. -/
def TimeoutManagerF64.update (tm : TimeoutManagerF64) (deltaTime : F64) :
    TimeoutManagerF64 × Bool :=
  if tm.isActive = false ∨ tm.hasTriggered = true then
    (tm, false)
  else
    triggerCheck tm (clampAtZero (tm.timeRemaining.sub deltaTime))

/-- Run `n` binary64 timer updates with `dt = 0.1`, counting `true` returns. -/
def timerRunF64 : ℕ → TimeoutManagerF64 → TimeoutManagerF64 × ℕ
  | 0, tm => (tm, 0)
  | n + 1, tm =>
      match tm.update f64Tenth with
      | (tm2, fired) =>
          match timerRunF64 n tm2 with
          | (tmf, count) => (tmf, (if fired then 1 else 0) + count)

/-- A timer constructed with the binary64 duration `15.0` (exact) and
started. -/
def tmF64Start : TimeoutManagerF64 :=
  (TimeoutManagerF64.make (F64.mk 15 0)).start

lemma timerRunF64_add (a b : ℕ) (tm : TimeoutManagerF64) :
    timerRunF64 (a + b) tm =
      ((timerRunF64 b (timerRunF64 a tm).1).1,
        (timerRunF64 a tm).2 + (timerRunF64 b (timerRunF64 a tm).1).2) := by
  induction a generalizing tm with
  | zero => simp [timerRunF64]
  | succ a ih =>
      have h : a + 1 + b = (a + b) + 1 := by omega
      rw [h]
      cases hu : tm.update f64Tenth with
      | mk tm2 fired =>
          simp only [timerRunF64, hu, ih tm2]
          cases hr : timerRunF64 a tm2 with
          | mk tmA cA =>
              cases hrb : timerRunF64 b tmA with
              | mk tmB cB =>
                  simp [Nat.add_assoc]

set_option maxRecDepth 100000 in
set_option maxHeartbeats 6000000 in
lemma timerRunF64_first50 : timerRunF64 50 tmF64Start =
    (TimeoutManagerF64.mk (F64.mk 5629499534213130 (-49)) true false
      (F64.mk 15 0), 0) := by
  simp [timerRunF64, TimeoutManagerF64.update, triggerCheck, clampAtZero,
    F64.sub, roundDyadic, roundBits, roundShift, roundCore, roundQ,
    bits, bitsAux, f64Tenth, tmF64Start, TimeoutManagerF64.make,
    TimeoutManagerF64.start]

set_option maxRecDepth 100000 in
set_option maxHeartbeats 6000000 in
lemma timerRunF64_mid50 :
    timerRunF64 50 (TimeoutManagerF64.mk (F64.mk 5629499534213130 (-49)) true
      false (F64.mk 15 0)) =
    (TimeoutManagerF64.mk (F64.mk 5629499534213160 (-50)) true false
      (F64.mk 15 0), 0) := by
  simp [timerRunF64, TimeoutManagerF64.update, triggerCheck, clampAtZero,
    F64.sub, roundDyadic, roundBits, roundShift, roundCore, roundQ,
    bits, bitsAux, f64Tenth]

set_option maxRecDepth 100000 in
set_option maxHeartbeats 6000000 in
lemma timerRunF64_last50 :
    timerRunF64 50 (TimeoutManagerF64.mk (F64.mk 5629499534213160 (-50)) true
      false (F64.mk 15 0)) =
    (TimeoutManagerF64.mk (F64.mk 1317 (-55)) true false (F64.mk 15 0), 0) := by
  simp [timerRunF64, TimeoutManagerF64.update, triggerCheck, clampAtZero,
    F64.sub, roundDyadic, roundBits, roundShift, roundCore, roundQ,
    bits, bitsAux, f64Tenth]

/-- After 150 binary64 updates of `dt = 0.1` from `15.0`, the remaining time
is `1317 · 2^-55 ≈ 3.655 × 10^-14`, still strictly positive, and the trigger
has not fired. -/
lemma timerRunF64_150 : timerRunF64 150 tmF64Start =
    (TimeoutManagerF64.mk (F64.mk 1317 (-55)) true false (F64.mk 15 0), 0) := by
  rw [show (150 : ℕ) = 100 + 50 by norm_num, timerRunF64_add,
    show (100 : ℕ) = 50 + 50 by norm_num, timerRunF64_add,
    timerRunF64_first50]
  dsimp only
  rw [timerRunF64_mid50]
  dsimp only
  rw [timerRunF64_last50]
  simp

set_option maxRecDepth 100000 in
/-- The 151st update fires the trigger and the clamp sets the remaining time
to exactly 0. -/
lemma timerRunF64_step151 :
    (TimeoutManagerF64.mk (F64.mk 1317 (-55)) true false (F64.mk 15 0)).update
      f64Tenth =
    (TimeoutManagerF64.mk (F64.mk 0 0) false true (F64.mk 15 0), true) := by
  simp [TimeoutManagerF64.update, triggerCheck, clampAtZero,
    F64.sub, roundDyadic, roundBits, roundShift, roundCore, roundQ,
    bits, bitsAux, f64Tenth]

/-- Claim C7, counterexample: under the program's binary64 arithmetic, the
timer started at 15.0 and updated 150 times with `dt = 0.1` fires on none of
those updates, and its remaining time is `1317 · 2^-55 ≈ 3.655e-14`, not
exactly 0 — accumulated rounding of the 150 subtractions keeps it positive,
so the claim's "reaches exactly 0 and fires on exactly one of the 150
updates" is false of the code. -/
theorem claim_C7_cex :
    (timerRunF64 150 tmF64Start).2 = 0 ∧
    (timerRunF64 150 tmF64Start).1.timeRemaining = F64.mk 1317 (-55) ∧
    (timerRunF64 150 tmF64Start).1.timeRemaining ≠ F64.mk 0 0 := by
  rw [timerRunF64_150]
  refine ⟨rfl, rfl, ?_⟩
  simp [F64.mk.injEq]

/-- Claim C7, amended: under binary64 arithmetic the timer started at 15.0
and updated with `dt = 0.1` fires on none of the first 150 updates; it fires
the one-shot trigger exactly once, on update 151, at which point the clamp
sets the remaining time to exactly 0 and latches `hasTriggered`; once
latched, any further update returns `false` and leaves the state unchanged
until reset. -/
theorem claim_C7_thm :
    (timerRunF64 150 tmF64Start).2 = 0 ∧
    ((timerRunF64 150 tmF64Start).1.update f64Tenth).2 = true ∧
    ((timerRunF64 150 tmF64Start).1.update f64Tenth).1.timeRemaining =
      F64.mk 0 0 ∧
    ((timerRunF64 150 tmF64Start).1.update f64Tenth).1.hasTriggered = true ∧
    (∀ (tm : TimeoutManagerF64) (dt : F64), tm.hasTriggered = true →
      tm.update dt = (tm, false)) := by
  refine ⟨by rw [timerRunF64_150], ?_, ?_, ?_, ?_⟩
  · rw [timerRunF64_150]
    dsimp only
    rw [timerRunF64_step151]
  · rw [timerRunF64_150]
    dsimp only
    rw [timerRunF64_step151]
  · rw [timerRunF64_150]
    dsimp only
    rw [timerRunF64_step151]
  · intro tm dt htrig
    simp [TimeoutManagerF64.update, htrig]

/-- Claim C7, witness: the latch conjunct applied to the concrete timer state
reached after the trigger fires. -/
theorem claim_C7_wit :
    (TimeoutManagerF64.mk (F64.mk 0 0) false true (F64.mk 15 0)).update
      f64Tenth =
    (TimeoutManagerF64.mk (F64.mk 0 0) false true (F64.mk 15 0), false) :=
  claim_C7_thm.2.2.2.2 (TimeoutManagerF64.mk (F64.mk 0 0) false true
    (F64.mk 15 0)) f64Tenth rfl

/-! ### TitanicAnimationSystem (titanicAnimation.ts) -/

/-- The four fixed animation stage names. -/
inductive AnimationStageName where
  | titanicApproach
  | collisionStage
  | icebergSplit
  | ghostSink
deriving DecidableEq, Repr

/-- Stage name at each cursor index, in the fixed declared order. -/
def stageNameAt (i : ℤ) : Option AnimationStageName :=
  if i = 0 then some AnimationStageName.titanicApproach
  else if i = 1 then some AnimationStageName.collisionStage
  else if i = 2 then some AnimationStageName.icebergSplit
  else if i = 3 then some AnimationStageName.ghostSink
  else none

/-- Stage duration at each cursor index: 2.0s, 0.5s, 1.0s, 2.0s. -/
def stageDuration (i : ℤ) : ℚ :=
  if i = 0 then 2
  else if i = 1 then 1 / 2
  else if i = 2 then 1
  else if i = 3 then 2
  else 0

/-- Source `TitanicAnimationSystem`: per-stage elapsed times, the stage cursor
(`-1` = not started, `4` = past the last stage), and the completion flag.
The derived presentation values (`titanicX`, `titanicY`,
`icebergSplitOffset`, `ghostSinkY`) are render-only outputs computed from the
current stage's progress; they feed no stage-progression decision and are
omitted. -/
structure TitanicAnimationSystem where
  elapsed0 : ℚ
  elapsed1 : ℚ
  elapsed2 : ℚ
  elapsed3 : ℚ
  currentStageIndex : ℤ
  isComplete : Bool
deriving DecidableEq, Repr

/-- The constructor: all elapsed times 0, cursor `-1`, not complete. -/
def TitanicAnimationSystem.make : TitanicAnimationSystem :=
  { elapsed0 := 0, elapsed1 := 0, elapsed2 := 0, elapsed3 := 0,
    currentStageIndex := -1, isComplete := false }

/-- Source `start()`: cursor to 0, completion cleared, all elapsed times reset. -/
def TitanicAnimationSystem.start (t : TitanicAnimationSystem) :
    TitanicAnimationSystem :=
  { t with
    currentStageIndex := 0
    isComplete := false
    elapsed0 := 0
    elapsed1 := 0
    elapsed2 := 0
    elapsed3 := 0 }

/-- Source `reset()`: cursor to `-1`, completion cleared, all elapsed times reset. -/
def TitanicAnimationSystem.reset (t : TitanicAnimationSystem) :
    TitanicAnimationSystem :=
  { t with
    currentStageIndex := -1
    isComplete := false
    elapsed0 := 0
    elapsed1 := 0
    elapsed2 := 0
    elapsed3 := 0 }

/-- Elapsed time of the stage at index `i` (`stages[i].elapsed`). -/
def TitanicAnimationSystem.elapsedAt (t : TitanicAnimationSystem) (i : ℤ) : ℚ :=
  if i = 0 then t.elapsed0
  else if i = 1 then t.elapsed1
  else if i = 2 then t.elapsed2
  else if i = 3 then t.elapsed3
  else 0

/-- Write the elapsed time of the stage at index `i`. -/
def TitanicAnimationSystem.setElapsed (t : TitanicAnimationSystem) (i : ℤ)
    (v : ℚ) : TitanicAnimationSystem :=
  if i = 0 then { t with elapsed0 := v }
  else if i = 1 then { t with elapsed1 := v }
  else if i = 2 then { t with elapsed2 := v }
  else if i = 3 then { t with elapsed3 := v }
  else t

/-- Source `update(deltaTime)`: no-op when complete or not started; otherwise add
`deltaTime` to the current stage's elapsed time (the per-stage render value
computation is omitted as render-only), and when the stage's elapsed time
reaches its duration advance the cursor, setting the completion flag when the
cursor passes the last stage.  (In the source a cursor `≥ 4` with the
completion flag unset would index past the stage array; that state is
unreachable — see the invariant lemmas below.) -/
def TitanicAnimationSystem.update (t : TitanicAnimationSystem) (deltaTime : ℚ) :
    TitanicAnimationSystem :=
  if t.isComplete = true ∨ t.currentStageIndex < 0 then
    t
  else if t.elapsedAt t.currentStageIndex + deltaTime ≥
      stageDuration t.currentStageIndex then
    if t.currentStageIndex + 1 ≥ 4 then
      { t.setElapsed t.currentStageIndex
          (t.elapsedAt t.currentStageIndex + deltaTime) with
        currentStageIndex := t.currentStageIndex + 1, isComplete := true }
    else
      { t.setElapsed t.currentStageIndex
          (t.elapsedAt t.currentStageIndex + deltaTime) with
        currentStageIndex := t.currentStageIndex + 1 }
  else
    t.setElapsed t.currentStageIndex (t.elapsedAt t.currentStageIndex + deltaTime)

lemma setElapsed_currentStageIndex (t : TitanicAnimationSystem) (i : ℤ) (v : ℚ) :
    (t.setElapsed i v).currentStageIndex = t.currentStageIndex := by
  unfold TitanicAnimationSystem.setElapsed
  split_ifs <;> rfl

lemma setElapsed_isComplete (t : TitanicAnimationSystem) (i : ℤ) (v : ℚ) :
    (t.setElapsed i v).isComplete = t.isComplete := by
  unfold TitanicAnimationSystem.setElapsed
  split_ifs <;> rfl

lemma elapsedAt_setElapsed (t : TitanicAnimationSystem) (j i : ℤ) (v : ℚ)
    (hj0 : 0 ≤ j) (hj4 : j < 4) :
    (t.setElapsed j v).elapsedAt i = if i = j then v else t.elapsedAt i := by
  interval_cases j <;>
    simp only [TitanicAnimationSystem.setElapsed, TitanicAnimationSystem.elapsedAt] <;>
    norm_num <;>
    split_ifs <;>
    simp_all

/-- The reachability invariant of the animation system after `start()`. -/
def AnimInv (t : TitanicAnimationSystem) : Prop :=
  0 ≤ t.currentStageIndex ∧ t.currentStageIndex ≤ 4 ∧
  (t.isComplete = true ↔ t.currentStageIndex = 4) ∧
  (∀ i : ℤ, 0 ≤ i → i < t.currentStageIndex → stageDuration i ≤ t.elapsedAt i)

lemma animInv_start (t : TitanicAnimationSystem) : AnimInv t.start := by
  refine ⟨by norm_num [TitanicAnimationSystem.start],
    by norm_num [TitanicAnimationSystem.start],
    by simp [TitanicAnimationSystem.start], ?_⟩
  intro i hi0 hi
  simp only [TitanicAnimationSystem.start] at hi
  omega

lemma elapsedAt_setIdxComplete (t : TitanicAnimationSystem) (j : ℤ) (i : ℤ) :
    ({ t with currentStageIndex := j, isComplete := true } :
      TitanicAnimationSystem).elapsedAt i = t.elapsedAt i := rfl

lemma elapsedAt_setIdx (t : TitanicAnimationSystem) (j : ℤ) (i : ℤ) :
    ({ t with currentStageIndex := j } :
      TitanicAnimationSystem).elapsedAt i = t.elapsedAt i := rfl

lemma animInv_update (t : TitanicAnimationSystem) (dt : ℚ) (h : AnimInv t) :
    AnimInv (t.update dt) := by
  obtain ⟨h0, h4, hc, he⟩ := h
  unfold TitanicAnimationSystem.update
  split_ifs with hguard hdur hpass
  · exact ⟨h0, h4, hc, he⟩
  · -- stage finished and the cursor passed the last stage: now complete
    have hnc : t.isComplete ≠ true := fun hh => hguard (Or.inl hh)
    have hlt4 : t.currentStageIndex < 4 := by
      rcases lt_or_eq_of_le h4 with hh | hh
      · exact hh
      · exact absurd (hc.mpr hh) hnc
    refine ⟨?_, ?_, ?_, ?_⟩
    · show (0 : ℤ) ≤ t.currentStageIndex + 1
      omega
    · show t.currentStageIndex + 1 ≤ 4
      omega
    · show true = true ↔ t.currentStageIndex + 1 = 4
      constructor
      · intro _
        omega
      · intro _
        rfl
    · intro i hi0 hi
      rw [elapsedAt_setIdxComplete,
        elapsedAt_setElapsed t t.currentStageIndex i _ h0 hlt4]
      by_cases hie : i = t.currentStageIndex
      · rw [if_pos hie, hie]
        exact hdur
      · rw [if_neg hie]
        have hi2 : i < t.currentStageIndex + 1 := hi
        exact he i hi0 (by omega)
  · -- stage finished, more stages remain: cursor advances by one
    have hnc : t.isComplete ≠ true := fun hh => hguard (Or.inl hh)
    have hlt4 : t.currentStageIndex < 4 := by
      rcases lt_or_eq_of_le h4 with hh | hh
      · exact hh
      · exact absurd (hc.mpr hh) hnc
    refine ⟨?_, ?_, ?_, ?_⟩
    · show (0 : ℤ) ≤ t.currentStageIndex + 1
      omega
    · show t.currentStageIndex + 1 ≤ 4
      omega
    · show (t.setElapsed t.currentStageIndex
          (t.elapsedAt t.currentStageIndex + dt)).isComplete = true ↔
        t.currentStageIndex + 1 = 4
      rw [setElapsed_isComplete]
      simp only [Bool.not_eq_true] at hnc
      rw [hnc]
      constructor
      · intro hh
        exact absurd hh (by simp)
      · intro hh
        exact absurd hh (by omega)
    · intro i hi0 hi
      rw [elapsedAt_setIdx,
        elapsedAt_setElapsed t t.currentStageIndex i _ h0 hlt4]
      by_cases hie : i = t.currentStageIndex
      · rw [if_pos hie, hie]
        exact hdur
      · rw [if_neg hie]
        have hi2 : i < t.currentStageIndex + 1 := hi
        exact he i hi0 (by omega)
  · -- stage not yet finished: only the elapsed time grows
    have hnc : t.isComplete ≠ true := fun hh => hguard (Or.inl hh)
    have hlt4 : t.currentStageIndex < 4 := by
      rcases lt_or_eq_of_le h4 with hh | hh
      · exact hh
      · exact absurd (hc.mpr hh) hnc
    refine ⟨?_, ?_, ?_, ?_⟩
    · rw [setElapsed_currentStageIndex]
      exact h0
    · rw [setElapsed_currentStageIndex]
      exact h4
    · rw [setElapsed_isComplete, setElapsed_currentStageIndex]
      simp only [Bool.not_eq_true] at hnc
      rw [hnc]
      constructor
      · intro hh
        exact absurd hh (by simp)
      · intro hh
        exact absurd hh (by omega)
    · intro i hi0 hi
      rw [setElapsed_currentStageIndex] at hi
      rw [elapsedAt_setElapsed t t.currentStageIndex i _ h0 hlt4,
        if_neg (by omega : ¬ i = t.currentStageIndex)]
      exact he i hi0 hi

/-- Run a list of update steps starting from a freshly started system. -/
def runUpdates (dts : List ℚ) : TitanicAnimationSystem :=
  dts.foldl TitanicAnimationSystem.update TitanicAnimationSystem.make.start

lemma animInv_foldl (dts : List ℚ) :
    ∀ t : TitanicAnimationSystem, AnimInv t →
      AnimInv (dts.foldl TitanicAnimationSystem.update t) := by
  induction dts with
  | nil => intro t h; exact h
  | cons dt rest ih =>
      intro t h
      exact ih (t.update dt) (animInv_update t dt h)

lemma animInv_runUpdates (dts : List ℚ) : AnimInv (runUpdates dts) :=
  animInv_foldl dts TitanicAnimationSystem.make.start
    (animInv_start TitanicAnimationSystem.make)

/-- Claim C8: each `update` call advances the stage cursor by at most one (never
skipping or reordering the fixed stage list); whenever a run of updates from
`start()` reports completion, every one of the 4 stages has individually
reached its duration; and a complete system is left unchanged by further
updates (so `isComplete()` stays true until `reset()`). -/
theorem claim_C8_thm :
    (∀ (t : TitanicAnimationSystem) (dt : ℚ),
      (t.update dt).currentStageIndex = t.currentStageIndex ∨
        (t.update dt).currentStageIndex = t.currentStageIndex + 1) ∧
    (∀ dts : List ℚ, (runUpdates dts).isComplete = true →
      ∀ i : ℤ, 0 ≤ i → i < 4 →
        stageDuration i ≤ (runUpdates dts).elapsedAt i) ∧
    (∀ (t : TitanicAnimationSystem) (dt : ℚ), t.isComplete = true →
      t.update dt = t) := by
  refine ⟨?_, ?_, ?_⟩
  · intro t dt
    unfold TitanicAnimationSystem.update
    split_ifs
    · exact Or.inl rfl
    · exact Or.inr rfl
    · exact Or.inr rfl
    · exact Or.inl (setElapsed_currentStageIndex t _ _)
  · intro dts hcomp i hi0 hi4
    obtain ⟨-, -, hc, he⟩ := animInv_runUpdates dts
    exact he i hi0 (by rw [hc.mp hcomp]; exact hi4)
  · intro t dt hcomp
    unfold TitanicAnimationSystem.update
    rw [if_pos (Or.inl hcomp)]

/-- Claim C8, witness: running the stages to completion with one exact-duration
step each (2.0, 0.5, 1.0, 2.0) reports completion, so the first stage's
elapsed time has reached its duration; and the completed state absorbs
further updates. -/
theorem claim_C8_wit :
    stageDuration 0 ≤ (runUpdates [2, 1/2, 1, 2]).elapsedAt 0 ∧
    (TitanicAnimationSystem.mk 2 (1/2) 1 2 4 true).update 1 =
      TitanicAnimationSystem.mk 2 (1/2) 1 2 4 true := by
  constructor
  · refine claim_C8_thm.2.1 [2, 1/2, 1, 2] ?_ 0 (by norm_num) (by norm_num)
    norm_num [runUpdates, TitanicAnimationSystem.update,
      TitanicAnimationSystem.make, TitanicAnimationSystem.start,
      TitanicAnimationSystem.elapsedAt, TitanicAnimationSystem.setElapsed,
      stageDuration]
  · exact claim_C8_thm.2.2 (TitanicAnimationSystem.mk 2 (1/2) 1 2 4 true) 1 rfl

/-! ### Level configuration (levelConfig.ts) and the obstacle generator
(levelManager.ts) -/

namespace PHYSICS_CONSTANTS

def GRAVITY : ℚ := 800

def JUMP_STRENGTH : ℚ := -400

def TERMINAL_VELOCITY : ℚ := 600

def GROUND_Y : ℚ := 550

def HORIZONTAL_SPEED : ℚ := 200

end PHYSICS_CONSTANTS

/-- Sea creature type tag (render-only data carried by the config). -/
inductive SeaCreatureType where
  | smallFish
  | largeFish
  | shark
deriving DecidableEq, Repr

/-- Source `LevelConfig` interface; the two-element ranges become min/max pairs. -/
structure LevelConfig where
  levelNumber : ℕ
  obstacleCount : ℕ
  obstacleMinSpacing : ℚ
  obstacleHeightMin : ℚ
  obstacleHeightMax : ℚ
  obstacleWidthMin : ℚ
  obstacleWidthMax : ℚ
  seaCreatureType : SeaCreatureType
  seaCreatureCount : ℕ
  seaCreatureSize : ℚ
  doorPositionX : ℚ
  doorPositionY : ℚ
  chalicePosition : Option (ℚ × ℚ)
deriving DecidableEq, Repr

def levelConfig1 : LevelConfig :=
  { levelNumber := 1, obstacleCount := 2, obstacleMinSpacing := 200,
    obstacleHeightMin := 30, obstacleHeightMax := 40,
    obstacleWidthMin := 40, obstacleWidthMax := 50,
    seaCreatureType := SeaCreatureType.smallFish, seaCreatureCount := 2,
    seaCreatureSize := 20, doorPositionX := 700, doorPositionY := 470,
    chalicePosition := none }

def levelConfig2 : LevelConfig :=
  { levelNumber := 2, obstacleCount := 3, obstacleMinSpacing := 180,
    obstacleHeightMin := 35, obstacleHeightMax := 50,
    obstacleWidthMin := 45, obstacleWidthMax := 60,
    seaCreatureType := SeaCreatureType.smallFish, seaCreatureCount := 3,
    seaCreatureSize := 25, doorPositionX := 700, doorPositionY := 450,
    chalicePosition := none }

def levelConfig3 : LevelConfig :=
  { levelNumber := 3, obstacleCount := 4, obstacleMinSpacing := 160,
    obstacleHeightMin := 40, obstacleHeightMax := 60,
    obstacleWidthMin := 50, obstacleWidthMax := 70,
    seaCreatureType := SeaCreatureType.largeFish, seaCreatureCount := 3,
    seaCreatureSize := 40, doorPositionX := 700, doorPositionY := 430,
    chalicePosition := none }

def levelConfig4 : LevelConfig :=
  { levelNumber := 4, obstacleCount := 5, obstacleMinSpacing := 140,
    obstacleHeightMin := 45, obstacleHeightMax := 65,
    obstacleWidthMin := 55, obstacleWidthMax := 75,
    seaCreatureType := SeaCreatureType.largeFish, seaCreatureCount := 4,
    seaCreatureSize := 50, doorPositionX := 700, doorPositionY := 410,
    chalicePosition := none }

def levelConfig5 : LevelConfig :=
  { levelNumber := 5, obstacleCount := 6, obstacleMinSpacing := 120,
    obstacleHeightMin := 50, obstacleHeightMax := 70,
    obstacleWidthMin := 60, obstacleWidthMax := 80,
    seaCreatureType := SeaCreatureType.shark, seaCreatureCount := 4,
    seaCreatureSize := 70, doorPositionX := 700, doorPositionY := 390,
    chalicePosition := none }

def levelConfig6 : LevelConfig :=
  { levelNumber := 6, obstacleCount := 7, obstacleMinSpacing := 100,
    obstacleHeightMin := 55, obstacleHeightMax := 75,
    obstacleWidthMin := 65, obstacleWidthMax := 85,
    seaCreatureType := SeaCreatureType.shark, seaCreatureCount := 5,
    seaCreatureSize := 90, doorPositionX := 700, doorPositionY := 370,
    chalicePosition := some (650, 500) }

/-- Source `LEVEL_CONFIGS`: six tiers with progressive difficulty. -/
def LEVEL_CONFIGS : List LevelConfig :=
  [levelConfig1, levelConfig2, levelConfig3, levelConfig4, levelConfig5,
    levelConfig6]

/-- Source `getLevelConfig(level)`: clamp to `[1, 6]` and index the static table.
The clamped index is always in range, so the `getD` fallback is never hit. -/
def getLevelConfig (level : ℤ) : LevelConfig :=
  LEVEL_CONFIGS.getD (max 1 (min 6 level) - 1).toNat levelConfig1

/-- Source `Door` from models.ts; the constructor defaults are width 60, height 80,
`isActive = true`. -/
structure Door where
  x : ℚ
  y : ℚ
  width : ℚ
  height : ℚ
  isActive : Bool
deriving DecidableEq, Repr

/-- Source `Door.getBounds()`. -/
def Door.getBounds (d : Door) : Rectangle :=
  { x := d.x, y := d.y, width := d.width, height := d.height }

/-- Source `Door.checkOverlap(character)`: active-door strict AABB overlap. -/
def Door.checkOverlap (d : Door) (character : GhostCharacter) : Bool :=
  decide (d.isActive = true ∧
    character.x < d.x + d.width ∧ character.x + character.width > d.x ∧
    character.y < d.y + d.height ∧ character.y + character.height > d.y)

/-- Source `Chalice` from models.ts; constructor defaults width 40, height 50,
`collected = false`. -/
structure Chalice where
  x : ℚ
  y : ℚ
  width : ℚ
  height : ℚ
  collected : Bool
deriving DecidableEq, Repr

/-- Source `Chalice.checkCollision(character)`: `false` once collected, else strict
AABB overlap. -/
def Chalice.checkCollision (ch : Chalice) (character : GhostCharacter) : Bool :=
  if ch.collected = true then
    false
  else
    decide (character.x < ch.x + ch.width ∧
      character.x + character.width > ch.x ∧
      character.y < ch.y + ch.height ∧
      character.y + character.height > ch.y)

/-- Source `maxJumpHeight` as computed inside `generateObstacles`:
`|JUMP_STRENGTH|² / (2·GRAVITY)`. -/
def maxJumpHeight : ℚ :=
  |PHYSICS_CONSTANTS.JUMP_STRENGTH| * |PHYSICS_CONSTANTS.JUMP_STRENGTH| /
    (2 * PHYSICS_CONSTANTS.GRAVITY)

lemma maxJumpHeight_val : maxJumpHeight = 100 := by
  norm_num [maxJumpHeight, PHYSICS_CONSTANTS.JUMP_STRENGTH,
    PHYSICS_CONSTANTS.GRAVITY]

/-- The obstacle-placement loop of `generateObstacles`: `n` iterations
remain, `k` is the cursor into the stream of uniform `[0,1)` draws (two draws
per iteration: width then height), `currentX` the placement cursor.  A
candidate whose height exceeds `0.8 · maxJumpHeight` is skipped (not pushed),
but its width still advances the cursor, exactly as in the source. -/
def genLoop (config : LevelConfig) (spacing : ℚ) (draws : ℕ → ℚ) :
    ℕ → ℕ → ℚ → List Obstacle
  | _, 0, _ => []
  | k, n + 1, currentX =>
      let width := config.obstacleWidthMin +
        draws k * (config.obstacleWidthMax - config.obstacleWidthMin)
      let height := config.obstacleHeightMin +
        draws (k + 1) * (config.obstacleHeightMax - config.obstacleHeightMin)
      let rest := genLoop config spacing draws (k + 2) n
        (currentX + width + spacing)
      if height ≤ maxJumpHeight * (4 / 5) then
        Obstacle.mk currentX (PHYSICS_CONSTANTS.GROUND_Y - height) width height
          ObstacleType.block :: rest
      else
        rest

/-- Source `LevelManager.generateObstacles(level)`, with the `Math.random()` calls
made explicit as a stream `draws` of values in `[0,1)`. -/
def generateObstacles (level : ℤ) (draws : ℕ → ℚ) : List Obstacle :=
  let config := getLevelConfig level
  let startX : ℚ := 100
  let endX := config.doorPositionX - 100
  let availableWidth := endX - startX
  let totalObstacleWidth := (config.obstacleCount : ℚ) *
    ((config.obstacleWidthMin + config.obstacleWidthMax) / 2)
  let totalSpacing := availableWidth - totalObstacleWidth
  let spacing := max config.obstacleMinSpacing
    (totalSpacing / ((config.obstacleCount : ℚ) + 1))
  genLoop config spacing draws 0 config.obstacleCount (startX + spacing)

/-- Source `LevelManager.generateDoor(level)`: no door on the final level; otherwise
a door at the configured x, standing on the ground. -/
def generateDoor (level : ℤ) : Option Door :=
  if level ≥ 6 then
    none
  else
    some (Door.mk (getLevelConfig level).doorPositionX
      (PHYSICS_CONSTANTS.GROUND_Y - 80) 60 80 true)

/-- Source `LevelManager.generateChalice(level)`: only on level 6, at the configured
position. -/
def generateChalice (level : ℤ) : Option Chalice :=
  if level ≠ 6 then
    none
  else
    match (getLevelConfig level).chalicePosition with
    | some p => some (Chalice.mk p.1 p.2 40 50 false)
    | none => none

/-- Strict AABB overlap of two rectangles, the same test `checkCollision` and
`checkOverlap` use; stated over `Rectangle` for the generator claims. -/
def rectsOverlap (a b : Rectangle) : Prop :=
  a.x < b.x + b.width ∧ a.x + a.width > b.x ∧
  a.y < b.y + b.height ∧ a.y + a.height > b.y

/-- Well-formedness of a tier configuration, used by the generator lemmas. -/
def ConfigOK (cfg : LevelConfig) : Prop :=
  0 ≤ cfg.obstacleWidthMin ∧ cfg.obstacleWidthMin ≤ cfg.obstacleWidthMax ∧
  0 ≤ cfg.obstacleHeightMin ∧ cfg.obstacleHeightMin ≤ cfg.obstacleHeightMax ∧
  cfg.obstacleHeightMax ≤ 80 ∧ 0 ≤ cfg.obstacleMinSpacing

lemma configOK_getLevelConfig (level : ℤ) : ConfigOK (getLevelConfig level) := by
  have hc1 : 1 ≤ max 1 (min 6 level) := le_max_left _ _
  have hc6 : max 1 (min 6 level) ≤ 6 := max_le (by norm_num) (min_le_left _ _)
  unfold getLevelConfig
  set c := max 1 (min 6 level) with hc
  clear_value c
  interval_cases c
  · show ConfigOK levelConfig1
    norm_num [ConfigOK, levelConfig1]
  · show ConfigOK levelConfig2
    norm_num [ConfigOK, levelConfig2]
  · show ConfigOK levelConfig3
    norm_num [ConfigOK, levelConfig3]
  · show ConfigOK levelConfig4
    norm_num [ConfigOK, levelConfig4]
  · show ConfigOK levelConfig5
    norm_num [ConfigOK, levelConfig5]
  · show ConfigOK levelConfig6
    norm_num [ConfigOK, levelConfig6]

lemma genLoop_props (config : LevelConfig) (spacing : ℚ) (draws : ℕ → ℚ)
    (hd : ∀ m : ℕ, 0 ≤ draws m ∧ draws m < 1) (hok : ConfigOK config)
    (hs : 0 ≤ spacing) :
    ∀ (n k : ℕ) (currentX : ℚ),
      (genLoop config spacing draws k n currentX).length = n ∧
      (∀ o ∈ genLoop config spacing draws k n currentX,
        currentX ≤ o.x ∧ o.y = PHYSICS_CONSTANTS.GROUND_Y - o.height ∧
        config.obstacleHeightMin ≤ o.height ∧ o.height ≤ 80 ∧
        config.obstacleWidthMin ≤ o.width ∧
        o.width ≤ config.obstacleWidthMax ∧
        o.x + o.width ≤ currentX + n * config.obstacleWidthMax +
          ((n : ℚ) - 1) * spacing) ∧
      (∀ o, (genLoop config spacing draws k n currentX).head? = some o →
        o.x = currentX) ∧
      List.Chain' (fun a b => b.x = a.x + a.width + spacing)
        (genLoop config spacing draws k n currentX) := by
  obtain ⟨hw0, hww, hh0, hhh, hh80, _⟩ := hok
  intro n
  induction n with
  | zero =>
      intro k currentX
      refine ⟨rfl, ?_, ?_, ?_⟩ <;> simp [genLoop]
  | succ n ih =>
      intro k currentX
      obtain ⟨hwk0, hwk1⟩ := hd k
      obtain ⟨hhk0, hhk1⟩ := hd (k + 1)
      have hwlo : config.obstacleWidthMin ≤ config.obstacleWidthMin +
          draws k * (config.obstacleWidthMax - config.obstacleWidthMin) := by
        nlinarith
      have hwhi : config.obstacleWidthMin +
          draws k * (config.obstacleWidthMax - config.obstacleWidthMin) ≤
          config.obstacleWidthMax := by
        nlinarith
      have hhlo : config.obstacleHeightMin ≤ config.obstacleHeightMin +
          draws (k + 1) *
            (config.obstacleHeightMax - config.obstacleHeightMin) := by
        nlinarith
      have hhhi : config.obstacleHeightMin +
          draws (k + 1) *
            (config.obstacleHeightMax - config.obstacleHeightMin) ≤
          config.obstacleHeightMax := by
        nlinarith
      have hcond : config.obstacleHeightMin +
          draws (k + 1) *
            (config.obstacleHeightMax - config.obstacleHeightMin) ≤
          maxJumpHeight * (4 / 5) := by
        rw [maxJumpHeight_val]
        nlinarith
      have hunfold : genLoop config spacing draws k (n + 1) currentX =
          Obstacle.mk currentX
            (PHYSICS_CONSTANTS.GROUND_Y -
              (config.obstacleHeightMin + draws (k + 1) *
                (config.obstacleHeightMax - config.obstacleHeightMin)))
            (config.obstacleWidthMin + draws k *
              (config.obstacleWidthMax - config.obstacleWidthMin))
            (config.obstacleHeightMin + draws (k + 1) *
              (config.obstacleHeightMax - config.obstacleHeightMin))
            ObstacleType.block ::
          genLoop config spacing draws (k + 2) n
            (currentX + (config.obstacleWidthMin + draws k *
              (config.obstacleWidthMax - config.obstacleWidthMin)) +
              spacing) := by
        simp only [genLoop]
        rw [if_pos hcond]
      obtain ⟨ihlen, ihmem, ihhead, ihchain⟩ := ih (k + 2)
        (currentX + (config.obstacleWidthMin + draws k *
          (config.obstacleWidthMax - config.obstacleWidthMin)) + spacing)
      refine ⟨?_, ?_, ?_, ?_⟩
      · rw [hunfold]
        simp [ihlen]
      · rw [hunfold]
        intro o ho
        rcases List.mem_cons.mp ho with rfl | ho
        · refine ⟨le_refl _, rfl, hhlo, le_trans hhhi hh80, hwlo, hwhi, ?_⟩
          push_cast
          nlinarith
        · obtain ⟨hx, hy, hhl, hhr, hwl, hwr, hxw⟩ := ihmem o ho
          refine ⟨by nlinarith, hy, hhl, hhr, hwl, hwr, ?_⟩
          push_cast
          nlinarith
      · rw [hunfold]
        intro o ho
        simp only [List.head?_cons, Option.some.injEq] at ho
        rw [← ho]
      · rw [hunfold]
        rw [List.chain'_cons']
        refine ⟨?_, ihchain⟩
        intro b hb
        rw [ihhead b (Option.mem_def.mp hb)]

/-- At tier 1 the spacing formula gives exactly `minSpacing = 200` and the
first obstacle is placed at `x = 300`. -/
lemma generateObstacles_one (draws : ℕ → ℚ) :
    generateObstacles 1 draws = genLoop levelConfig1 200 draws 0 2 300 := by
  have h : max levelConfig1.obstacleMinSpacing
      ((levelConfig1.doorPositionX - 100 - 100 -
        (levelConfig1.obstacleCount : ℚ) *
          ((levelConfig1.obstacleWidthMin + levelConfig1.obstacleWidthMax) /
            2)) /
        ((levelConfig1.obstacleCount : ℚ) + 1)) = 200 := by
    rw [max_eq_left (by norm_num [levelConfig1])]
    norm_num [levelConfig1]
  have hgen : generateObstacles 1 draws =
      genLoop levelConfig1
        (max levelConfig1.obstacleMinSpacing
          ((levelConfig1.doorPositionX - 100 - 100 -
            (levelConfig1.obstacleCount : ℚ) *
              ((levelConfig1.obstacleWidthMin +
                levelConfig1.obstacleWidthMax) / 2)) /
            ((levelConfig1.obstacleCount : ℚ) + 1)))
        draws 0 levelConfig1.obstacleCount
        (100 + max levelConfig1.obstacleMinSpacing
          ((levelConfig1.doorPositionX - 100 - 100 -
            (levelConfig1.obstacleCount : ℚ) *
              ((levelConfig1.obstacleWidthMin +
                levelConfig1.obstacleWidthMax) / 2)) /
            ((levelConfig1.obstacleCount : ℚ) + 1))) := rfl
  rw [hgen, h]
  norm_num
  rfl

/-- Claim C9: for every valid draw sequence, the tier-1 generator yields exactly 2
obstacles, each lying within `[100, doorX - 100] = [100, 600]` horizontally,
consecutive obstacles separated by at least `minSpacing = 200`. -/
theorem claim_C9_thm (draws : ℕ → ℚ)
    (hd : ∀ m : ℕ, 0 ≤ draws m ∧ draws m < 1) :
    (generateObstacles 1 draws).length = 2 ∧
    (∀ o ∈ generateObstacles 1 draws, 100 ≤ o.x ∧ o.x + o.width ≤ 600) ∧
    List.Chain' (fun a b => a.x + a.width + 200 ≤ b.x)
      (generateObstacles 1 draws) := by
  have hok : ConfigOK levelConfig1 := configOK_getLevelConfig 1
  obtain ⟨hlen, hmem, hhead, hchain⟩ :=
    genLoop_props levelConfig1 200 draws hd hok (by norm_num) 2 0 300
  rw [generateObstacles_one draws]
  refine ⟨hlen, ?_, ?_⟩
  · intro o ho
    obtain ⟨hx, -, -, -, -, hwr, hxw⟩ := hmem o ho
    have h50 : levelConfig1.obstacleWidthMax = 50 := rfl
    rw [h50] at hxw
    push_cast at hxw
    exact ⟨by linarith, by linarith⟩
  · refine List.Chain'.imp ?_ hchain
    intro a b hab
    rw [hab]

/-- Claim C9, witness: the all-zeros draw sequence. -/
theorem claim_C9_wit : (generateObstacles 1 (fun _ => (0 : ℚ))).length = 2 :=
  (claim_C9_thm (fun _ => 0) (fun _ => by norm_num)).1

/-- The fixed draw sequence exhibiting the C1 counterexample at tier 4:
widths 70, 70, 74 for the first three obstacles, minimal sizes otherwise. -/
def cexDraws : ℕ → ℚ := fun n =>
  if n = 0 then 3 / 4 else if n = 2 then 3 / 4 else if n = 4 then 19 / 20 else 0

/-- Every value of `cexDraws` is a legal uniform draw in `[0, 1)`. -/
lemma cexDraws_bounded : ∀ m : ℕ, 0 ≤ cexDraws m ∧ cexDraws m < 1 := by
  intro m
  unfold cexDraws
  split_ifs <;> norm_num

/-- Claim C1, counterexample: at tier 4 with the draw sequence `cexDraws`, the
generator's third obstacle is `(660, 505, 74, 45)`, which overlaps the tier-4
exit door rect `(700, 470, 60, 80)` (and extends past `doorX - 100 = 600`),
so the claimed non-overlap/clearance fails. -/
theorem claim_C1_cex :
    generateObstacles 4 cexDraws =
      [Obstacle.mk 240 505 70 45 ObstacleType.block,
        Obstacle.mk 450 505 70 45 ObstacleType.block,
        Obstacle.mk 660 505 74 45 ObstacleType.block,
        Obstacle.mk 874 505 55 45 ObstacleType.block,
        Obstacle.mk 1069 505 55 45 ObstacleType.block] ∧
    generateDoor 4 = some (Door.mk 700 470 60 80 true) ∧
    rectsOverlap (Rectangle.mk 660 505 74 45) (Rectangle.mk 700 470 60 80) := by
  refine ⟨?_, ?_, ?_⟩
  · rw [show generateObstacles 4 cexDraws =
        genLoop levelConfig4
          (max levelConfig4.obstacleMinSpacing
            ((levelConfig4.doorPositionX - 100 - 100 -
              (levelConfig4.obstacleCount : ℚ) *
                ((levelConfig4.obstacleWidthMin +
                  levelConfig4.obstacleWidthMax) / 2)) /
              ((levelConfig4.obstacleCount : ℚ) + 1)))
          cexDraws 0 levelConfig4.obstacleCount
          (100 + max levelConfig4.obstacleMinSpacing
            ((levelConfig4.doorPositionX - 100 - 100 -
              (levelConfig4.obstacleCount : ℚ) *
                ((levelConfig4.obstacleWidthMin +
                  levelConfig4.obstacleWidthMax) / 2)) /
              ((levelConfig4.obstacleCount : ℚ) + 1))) from rfl,
      show max levelConfig4.obstacleMinSpacing
          ((levelConfig4.doorPositionX - 100 - 100 -
            (levelConfig4.obstacleCount : ℚ) *
              ((levelConfig4.obstacleWidthMin +
                levelConfig4.obstacleWidthMax) / 2)) /
            ((levelConfig4.obstacleCount : ℚ) + 1)) = 140 from by
        rw [max_eq_left (by norm_num [levelConfig4])]
        norm_num [levelConfig4]]
    norm_num [genLoop, cexDraws, levelConfig4, maxJumpHeight_val,
      PHYSICS_CONSTANTS.GROUND_Y]
  · rw [show generateDoor 4 =
        some (Door.mk (getLevelConfig 4).doorPositionX
          (PHYSICS_CONSTANTS.GROUND_Y - 80) 60 80 true) from by
      rw [generateDoor, if_neg (by norm_num)]]
    norm_num [show getLevelConfig 4 = levelConfig4 from rfl, levelConfig4,
      PHYSICS_CONSTANTS.GROUND_Y]
  · norm_num [rectsOverlap]

/-- Claim C1, amended: for every tier 1–6 and every valid draw sequence, the
generator returns exactly `obstacleCount` obstacles, each jumpable
(height ≤ 0.8·maxJumpHeight), resting on the ground
(`y = groundY - height`), starting at `x ≥ 100`, with consecutive obstacles
separated by at least the tier's `minSpacing`; containment within
`[100, doorX - 100]`, non-overlap of the exit rect, and the 100-unit
clearance do NOT hold in general (see the counterexample at tier 4). -/
theorem claim_C1_thm (level : ℤ) (h1 : 1 ≤ level) (h6 : level ≤ 6)
    (draws : ℕ → ℚ) (hd : ∀ m : ℕ, 0 ≤ draws m ∧ draws m < 1) :
    (generateObstacles level draws).length =
      (getLevelConfig level).obstacleCount ∧
    (∀ o ∈ generateObstacles level draws,
      o.height ≤ maxJumpHeight * (4 / 5) ∧
      o.y = PHYSICS_CONSTANTS.GROUND_Y - o.height ∧
      100 ≤ o.x) ∧
    List.Chain' (fun a b =>
      a.x + a.width + (getLevelConfig level).obstacleMinSpacing ≤ b.x)
      (generateObstacles level draws) := by
  obtain ⟨hw0, hww, hh0m, hhh, hh80, hsp0⟩ := configOK_getLevelConfig level
  have hgen : generateObstacles level draws =
      genLoop (getLevelConfig level)
        (max (getLevelConfig level).obstacleMinSpacing
          (((getLevelConfig level).doorPositionX - 100 - 100 -
            ((getLevelConfig level).obstacleCount : ℚ) *
              (((getLevelConfig level).obstacleWidthMin +
                (getLevelConfig level).obstacleWidthMax) / 2)) /
            (((getLevelConfig level).obstacleCount : ℚ) + 1)))
        draws 0 (getLevelConfig level).obstacleCount
        (100 + max (getLevelConfig level).obstacleMinSpacing
          (((getLevelConfig level).doorPositionX - 100 - 100 -
            ((getLevelConfig level).obstacleCount : ℚ) *
              (((getLevelConfig level).obstacleWidthMin +
                (getLevelConfig level).obstacleWidthMax) / 2)) /
            (((getLevelConfig level).obstacleCount : ℚ) + 1))) := rfl
  have hs0 : (0 : ℚ) ≤ max (getLevelConfig level).obstacleMinSpacing
      (((getLevelConfig level).doorPositionX - 100 - 100 -
        ((getLevelConfig level).obstacleCount : ℚ) *
          (((getLevelConfig level).obstacleWidthMin +
            (getLevelConfig level).obstacleWidthMax) / 2)) /
        (((getLevelConfig level).obstacleCount : ℚ) + 1)) :=
    le_trans hsp0 (le_max_left _ _)
  have hsmin : (getLevelConfig level).obstacleMinSpacing ≤
      max (getLevelConfig level).obstacleMinSpacing
        (((getLevelConfig level).doorPositionX - 100 - 100 -
          ((getLevelConfig level).obstacleCount : ℚ) *
            (((getLevelConfig level).obstacleWidthMin +
              (getLevelConfig level).obstacleWidthMax) / 2)) /
          (((getLevelConfig level).obstacleCount : ℚ) + 1)) :=
    le_max_left _ _
  obtain ⟨hlen, hmem, hhead, hchain⟩ :=
    genLoop_props (getLevelConfig level) _ draws hd
      ⟨hw0, hww, hh0m, hhh, hh80, hsp0⟩ hs0
      (getLevelConfig level).obstacleCount 0
      (100 + max (getLevelConfig level).obstacleMinSpacing
        (((getLevelConfig level).doorPositionX - 100 - 100 -
          ((getLevelConfig level).obstacleCount : ℚ) *
            (((getLevelConfig level).obstacleWidthMin +
              (getLevelConfig level).obstacleWidthMax) / 2)) /
          (((getLevelConfig level).obstacleCount : ℚ) + 1)))
  rw [hgen]
  refine ⟨hlen, ?_, ?_⟩
  · intro o ho
    obtain ⟨hx, hy, -, hh80o, -, -, -⟩ := hmem o ho
    refine ⟨by rw [maxJumpHeight_val]; linarith, hy, by linarith⟩
  · refine List.Chain'.imp ?_ hchain
    intro a b hab
    rw [hab]
    linarith

/-- Claim C1, witness: the amended theorem at tier 1 with the constant 1/2 draw
sequence. -/
theorem claim_C1_wit :
    (generateObstacles 1 (fun _ => (1 / 2 : ℚ))).length =
      (getLevelConfig 1).obstacleCount :=
  (claim_C1_thm 1 (by norm_num) (by norm_num) (fun _ => 1 / 2)
    (fun _ => by norm_num)).1

/-! ### GameEngine (engine.ts, platformer variant) -/

/-- Source `GameStatus` from models.ts. -/
inductive GameStatus where
  | playing
  | transitioning
  | won
  | lost
  | timeoutAnimating
  | timeoutGameover
deriving DecidableEq, Repr

/-- The per-tick input sample.  The `InputHandler`'s event plumbing and
consume-on-read latches are host-side; within one `update` tick each query is
read at most once, so a read-only snapshot is faithful. -/
structure InputSnapshot where
  activeDirection : Option Dir
  spacePressed : Bool
  enterPressed : Bool
deriving DecidableEq, Repr

/-- The `GameEngine` state (platformer variant of engine.ts).  Render-only
members are omitted: canvas context, renderer, camera smoothing
(`cameraX/Y`), sea creatures, fireworks particles, the legacy `trapdoor`
(always `null` in platformer mode), and frame bookkeeping.  The `setTimeout`
deferred level transition is modelled by `pendingLevel`: the callback runs
outside the tick loop, so within `update` only the pending marker and the
`transitioning` status are observable. -/
structure EngineState where
  canvasWidth : ℚ
  canvasHeight : ℚ
  character : GhostCharacter
  gameStatus : GameStatus
  currentLevel : ℤ
  chalice : Option Chalice
  obstacles : List Obstacle
  door : Option Door
  isFalling : Bool
  fallingTimer : ℚ
  timeoutManager : TimeoutManager
  titanicAnimationSystem : TitanicAnimationSystem
  pendingLevel : Option ℤ
deriving DecidableEq, Repr

/-- Source `initializeLevel(level)`: level 0 is the starting area (entrance door at
a random offset, timer started); levels 1–6 generate obstacles, door and
chalice and reposition the character at the level start.  `draws` supplies
the `Math.random()` values (index 0: the level-0 door offset; the same
stream feeds `generateObstacles`).  Sea-creature generation is render-only
and omitted. -/
def initializeLevel (s : EngineState) (level : ℤ) (draws : ℕ → ℚ) :
    EngineState :=
  if level = 0 then
    { s with
      currentLevel := 0
      obstacles := []
      chalice := none
      door := some (Door.mk
        (s.canvasWidth / 2 + (-120 + draws 0 * (70 - (-120))))
        (s.canvasHeight * (1 / 10) - 80) 60 80 true)
      character := { s.character with
        currentLevel := 0
        x := s.canvasWidth / 2 - s.character.width / 2
        y := s.canvasHeight * (1 / 10) - s.character.height
        velocityY := 0
        isJumping := false
        isOnGround := true }
      timeoutManager := s.timeoutManager.start
      pendingLevel := s.pendingLevel }
  else
    { s with
      currentLevel := level
      obstacles := generateObstacles level draws
      door := generateDoor level
      chalice := generateChalice level
      character := { s.character with
        currentLevel := level
        x := 50
        y := PHYSICS_CONSTANTS.GROUND_Y - s.character.height
        velocityY := 0
        isJumping := false
        isOnGround := true } }

/-- Source `transitionToLevel(level)`: clamp to `[1,6]`, stop the lobby timer when
leaving level 0, set status `transitioning` and defer the level switch. -/
def transitionToLevel (s : EngineState) (level : ℤ) : EngineState :=
  let nextLevel := max 1 (min 6 level)
  let s1 := if s.currentLevel = 0 ∧ nextLevel > 0 then
    { s with timeoutManager := s.timeoutManager.stop } else s
  { s1 with
    gameStatus := GameStatus.transitioning
    pendingLevel := some nextLevel }

/-- Source `restartFromTimeout()`: back to the lobby (fireworks reset is
render-only and omitted). -/
def restartFromTimeout (s : EngineState) (draws : ℕ → ℚ) : EngineState :=
  let s1 := { s with
    gameStatus := GameStatus.playing
    timeoutManager := s.timeoutManager.reset
    titanicAnimationSystem := s.titanicAnimationSystem.reset }
  let s2 := initializeLevel s1 0 draws
  { s2 with timeoutManager := s2.timeoutManager.start }

/-- The obstacle block of `checkCollisions`. -/
def resolveObstaclesStep (s : EngineState) : EngineState :=
  { s with character :=
      PhysicsSystem.checkObstacleCollisions s.character s.obstacles }

/-- The door block of `checkCollisions`: on overlap plus a pending Enter
press, transition to the next level. -/
def doorStep (s : EngineState) (inp : InputSnapshot) : EngineState :=
  match s.door with
  | some door =>
      if door.checkOverlap s.character = true ∧ inp.enterPressed = true then
        transitionToLevel s (s.currentLevel + 1)
      else
        s
  | none => s

/-- The chalice block of `checkCollisions`: collecting the chalice triggers
the win. -/
def chaliceStep (s : EngineState) : EngineState :=
  match s.chalice with
  | some ch =>
      if ch.collected = false ∧ ch.checkCollision s.character = true then
        { s with
          chalice := some { ch with collected := true }
          gameStatus := GameStatus.won }
      else
        s
  | none => s

/-- The boundary block of `checkCollisions`: leaving the platform
horizontally, or sinking 100px below the ground, starts the falling
(drowning) confirmation timer. -/
def boundaryStep (s : EngineState) : EngineState :=
  let s1 := if s.character.x < 0 ∨ s.character.x + s.character.width > 1200 then
    (if s.isFalling = false then
      { s with isFalling := true, fallingTimer := 0 } else s)
    else s
  if s1.character.y > PHYSICS_CONSTANTS.GROUND_Y + 100 ∧ s1.isFalling = false then
    { s1 with isFalling := true, fallingTimer := 0 }
  else
    s1

/-- Source `GameEngine.checkCollisions()` in platformer mode: obstacles, door,
chalice, then the platform/water boundaries, in source order. -/
def checkCollisionsE (s : EngineState) (inp : InputSnapshot) : EngineState :=
  boundaryStep (chaliceStep (doorStep (resolveObstaclesStep s) inp))

/-- Source `GameEngine.update(deltaTime)`: the sinking branch runs first regardless
of `gameStatus`; then the per-status branches.  Rotation-only updates, sea
creatures, the camera and fireworks are render-only and omitted. -/
def engineUpdate (draws : ℕ → ℚ) (s : EngineState) (inp : InputSnapshot)
    (dt : ℚ) : EngineState :=
  if s.isFalling = true then
    let s1 := { s with
      fallingTimer := s.fallingTimer + dt
      character := { s.character with y := s.character.y + 200 * dt } }
    if s1.fallingTimer > 2 then
      { s1 with isFalling := false, gameStatus := GameStatus.lost }
    else
      s1
  else if s.gameStatus = GameStatus.playing then
    if s.currentLevel = 0 then
      let c1 := match inp.activeDirection with
        | some d => s.character.move d dt
        | none => s.character
      let s1 := { s with character := c1 }
      let tupd := s1.timeoutManager.update dt
      let s2 := { s1 with timeoutManager := tupd.1 }
      if tupd.2 = true then
        { s2 with
          gameStatus := GameStatus.timeoutAnimating
          titanicAnimationSystem := s2.titanicAnimationSystem.start }
      else
        let s3 := if s2.character.x < s2.canvasWidth * (1 / 4) ∨
            s2.character.x + s2.character.width > s2.canvasWidth * (3 / 4) then
          (if s2.isFalling = false then
            { s2 with isFalling := true, fallingTimer := 0 } else s2)
          else s2
        match s3.door with
        | some door =>
            if door.checkOverlap s3.character = true ∧
                inp.enterPressed = true then
              transitionToLevel s3 1
            else
              s3
        | none => s3
    else
      let c1 := if inp.spacePressed = true ∧ s.character.isOnGround = true then
        s.character.jump else s.character
      let c2 := match inp.activeDirection with
        | some d => c1.move d dt
        | none => c1
      let c3 := c2.updatePhysics dt
      let c4 := (PhysicsSystem.checkGroundCollision c3
        PHYSICS_CONSTANTS.GROUND_Y).1
      checkCollisionsE { s with character := c4 } inp
  else if s.gameStatus = GameStatus.won then
    s
  else if s.gameStatus = GameStatus.timeoutAnimating then
    let t1 := s.titanicAnimationSystem.update dt
    if t1.isComplete = true then
      { s with
        titanicAnimationSystem := t1
        gameStatus := GameStatus.timeoutGameover }
    else
      { s with titanicAnimationSystem := t1 }
  else if s.gameStatus = GameStatus.timeoutGameover then
    if inp.enterPressed = true then restartFromTimeout s draws else s
  else
    s

lemma transitionToLevel_chalice (s : EngineState) (level : ℤ) :
    (transitionToLevel s level).chalice = s.chalice := by
  simp only [transitionToLevel]
  split_ifs <;> rfl

lemma transitionToLevel_character (s : EngineState) (level : ℤ) :
    (transitionToLevel s level).character = s.character := by
  simp only [transitionToLevel]
  split_ifs <;> rfl

lemma doorStep_chalice (s : EngineState) (inp : InputSnapshot) :
    (doorStep s inp).chalice = s.chalice := by
  unfold doorStep
  cases hdd : s.door with
  | none => rfl
  | some d =>
      dsimp only
      split_ifs with hcond
      · exact transitionToLevel_chalice _ _
      · rfl

lemma doorStep_character (s : EngineState) (inp : InputSnapshot) :
    (doorStep s inp).character = s.character := by
  unfold doorStep
  cases hdd : s.door with
  | none => rfl
  | some d =>
      dsimp only
      split_ifs with hcond
      · exact transitionToLevel_character _ _
      · rfl

lemma boundaryStep_gameStatus (s : EngineState) :
    (boundaryStep s).gameStatus = s.gameStatus := by
  simp only [boundaryStep]
  split_ifs <;> rfl

/-- A level-6 session in which the character overlaps the uncollected chalice
while the falling (drowning) confirmation timer is about to elapse. -/
def cexEngineState : EngineState :=
  { canvasWidth := 800
    canvasHeight := 600
    character :=
      { x := 650, y := 510, width := 35, height := 40, velocity := 200,
        canvasWidth := 800, currentLevel := 6, velocityY := 0,
        isJumping := false, isOnGround := true, jumpStrength := -400,
        gravity := 800 }
    gameStatus := GameStatus.playing
    currentLevel := 6
    chalice := some (Chalice.mk 650 500 40 50 false)
    obstacles := []
    door := none
    isFalling := true
    fallingTimer := 19 / 10
    timeoutManager := TimeoutManager.make 5
    titanicAnimationSystem := TitanicAnimationSystem.make
    pendingLevel := none }

/-- Claim C3, counterexample: in `cexEngineState` the win condition holds (the
character overlaps the uncollected chalice) while the falling confirmation
elapses in the same tick; the update returns status `lost`, not `won` — the
sinking branch runs before the win check.  Moreover even a session already at
`won` is overwritten to `lost` by the pending falling timer. -/
theorem claim_C3_cex :
    (Chalice.mk 650 500 40 50 false).checkCollision
      cexEngineState.character = true ∧
    (engineUpdate (fun _ => 0) cexEngineState
      (InputSnapshot.mk none false false) (1 / 5)).gameStatus =
      GameStatus.lost ∧
    (engineUpdate (fun _ => 0)
        { cexEngineState with gameStatus := GameStatus.won }
        (InputSnapshot.mk none false false) (1 / 5)).gameStatus =
      GameStatus.lost := by
  refine ⟨?_, ?_, ?_⟩
  · norm_num [Chalice.checkCollision, cexEngineState]
  · norm_num [engineUpdate, cexEngineState]
  · norm_num [engineUpdate, cexEngineState]

/-- Claim C3, amended: within a single `checkCollisions` call the chalice (win)
check runs before the boundary (falling) check, so detecting the win there
yields status `won` for that tick; but the sinking-confirmation branch of
`update` runs before any status check, so whenever the falling timer elapses
during a tick the status becomes `lost` — even if the win overlap holds that
tick or the session had already reached `won`. -/
theorem claim_C3_thm :
    (∀ (draws : ℕ → ℚ) (s : EngineState) (inp : InputSnapshot) (dt : ℚ),
      s.isFalling = true → s.fallingTimer + dt > 2 →
      (engineUpdate draws s inp dt).gameStatus = GameStatus.lost) ∧
    (∀ (s : EngineState) (inp : InputSnapshot) (ch : Chalice),
      s.chalice = some ch → ch.collected = false →
      ch.checkCollision
        (PhysicsSystem.checkObstacleCollisions s.character s.obstacles) =
        true →
      (checkCollisionsE s inp).gameStatus = GameStatus.won) := by
  constructor
  · intro draws s inp dt hfall htime
    simp only [engineUpdate]
    rw [if_pos hfall, if_pos htime]
  · intro s inp ch hch hcoll hhit
    unfold checkCollisionsE
    rw [boundaryStep_gameStatus]
    have hch2 : (doorStep (resolveObstaclesStep s) inp).chalice = some ch := by
      rw [doorStep_chalice]
      exact hch
    have hcharacter : (doorStep (resolveObstaclesStep s) inp).character =
        PhysicsSystem.checkObstacleCollisions s.character s.obstacles := by
      rw [doorStep_character]
      rfl
    unfold chaliceStep
    rw [hch2]
    dsimp only
    rw [if_pos ⟨hcoll, by rw [hcharacter]; exact hhit⟩]

/-- Claim C3, witness: both conjuncts of the amended claim at concrete states. -/
theorem claim_C3_wit :
    (engineUpdate (fun _ => 0) cexEngineState
      (InputSnapshot.mk none false false) 1).gameStatus = GameStatus.lost ∧
    (checkCollisionsE { cexEngineState with isFalling := false }
      (InputSnapshot.mk none false false)).gameStatus = GameStatus.won := by
  constructor
  · exact claim_C3_thm.1 (fun _ => 0) cexEngineState
      (InputSnapshot.mk none false false) 1 rfl (by norm_num [cexEngineState])
  · refine claim_C3_thm.2 { cexEngineState with isFalling := false }
      (InputSnapshot.mk none false false) (Chalice.mk 650 500 40 50 false)
      rfl rfl ?_
    norm_num [PhysicsSystem.checkObstacleCollisions, cexEngineState,
      Chalice.checkCollision]

end Iceberg
